import Mathlib

/-!
Verification of the time-reminder alarm application (Vue/Tauri, `src/App.vue`).

The development shallowly embeds the recurrence evaluator (`shouldTrigger`),
the firing scheduler (`startScheduler`'s per-tick body), the notifier
fallback chain (`triggerAlarm`), and the editor save path (`saveForm`).

Modelling conventions:
- A calendar date (`YYYY-MM-DD` string in the source) is an integer day index
  (days since 1970-01-01, local).
- An evaluation moment (`dayjs()` value) is a day index plus seconds since
  local midnight.  Sub-second precision is dropped: it can only refine the
  `todSec = 0` edge of the truncated-difference computation further.
- `dayjs(a).diff(b, 'day')` divides the elapsed milliseconds by one day and
  truncates toward zero (dayjs `absFloor`); this is `Int.tdiv`.
- JavaScript `%` on a non-negative dividend and nonzero divisor agrees with
  `Int.emod` (Lean's `%` on `Int`); `x % 0` is `NaN` in JavaScript and any
  comparison with `NaN` is false, which is modelled by an explicit zero test.
- The asynchronous external calls made during one `triggerAlarm` (system
  notification sends, permission query/request) are modelled by an
  environment record giving each call's outcome.
-/

namespace TimeReminder

/-- The `RepeatType` union of the source. -/
inductive RepeatType
  | once
  | daily
  | workdays
  | mon_sat
  | custom
  | shift
  deriving DecidableEq

/-- The optional `shift` record of an alarm's repeat rule.  `startDate` is the
day index of the `YYYY-MM-DD` start date (parsed by dayjs at local midnight). -/
structure ShiftRule where
  startDate : Int
  workDays : Int
  restDays : Int
  deriving DecidableEq

/-- The `repeat` field of an alarm (named `repeatRule` here because `repeat`
is reserved in Lean). -/
structure RepeatRule where
  type : RepeatType
  customDays : List Int
  shift : Option ShiftRule
  deriving DecidableEq

/-- An alarm record.  `lastTriggered` is the day index of the stored
`YYYY-MM-DD` date, when present. -/
structure Alarm where
  id : String
  hour : Nat
  minute : Nat
  label : String
  enabled : Bool
  repeatRule : RepeatRule
  lastTriggered : Option Int
  deriving DecidableEq

/-- An evaluation moment: local calendar day index and seconds since local
midnight.  A real clock reading has `todSec < 86400`. -/
structure Moment where
  day : Int
  todSec : Nat
  deriving DecidableEq

/-- `now.hour()`. -/
def Moment.hour (m : Moment) : Nat := m.todSec / 3600

/-- `now.minute()`. -/
def Moment.minute (m : Moment) : Nat := m.todSec % 3600 / 60

/-- `now.day()`: dayjs weekday, 0 = Sunday .. 6 = Saturday.
Day 0 (1970-01-01) was a Thursday, weekday 4. -/
def Moment.weekday (m : Moment) : Int := (m.day + 4) % 7

/-- The minute-granularity key `now.format('YYYY-MM-DD HH:mm')`: for valid
moments the string is determined exactly by the day index and the minute of
the day. -/
def Moment.minuteKey (m : Moment) : Int × Nat := (m.day, m.todSec / 60)

/-- `now.diff(dayjs(startDate), 'day')`: elapsed time divided by one day and
truncated toward zero (dayjs `absFloor`), with `startDate` at local midnight.
Computed in seconds; dayjs uses milliseconds, which only refines the
`todSec = 0` edge. -/
def diffDays (now : Moment) (startDate : Int) : Int :=
  Int.tdiv ((now.day - startDate) * 86400 + (now.todSec : Int)) 86400

/-- `shouldTrigger(alarm, now, todayStr, currentDay)` from the source.
`todayStr` is the day index of `now.format('YYYY-MM-DD')` and `currentDay`
the weekday, both passed separately exactly as the scheduler does.
In the shift branch, `diffDays % cycleLength` with `cycleLength = 0` is `NaN`
in JavaScript and `NaN < workDays` is false, hence the explicit zero test. -/
def shouldTrigger (alarm : Alarm) (now : Moment) (todayStr : Int)
    (currentDay : Int) : Bool :=
  if alarm.lastTriggered = some todayStr ∧ alarm.repeatRule.type = RepeatType.once then
    false
  else if alarm.repeatRule.type = RepeatType.once then
    true
  else if alarm.repeatRule.type = RepeatType.daily then
    true
  else if alarm.repeatRule.type = RepeatType.workdays then
    decide (1 ≤ currentDay ∧ currentDay ≤ 5)
  else if alarm.repeatRule.type = RepeatType.mon_sat then
    decide (1 ≤ currentDay ∧ currentDay ≤ 6)
  else if alarm.repeatRule.type = RepeatType.custom then
    alarm.repeatRule.customDays.contains currentDay
  else if alarm.repeatRule.type = RepeatType.shift then
    match alarm.repeatRule.shift with
    | some shift =>
      let d := diffDays now shift.startDate
      if d < 0 then false
      else
        let cycleLength := shift.workDays + shift.restDays
        if cycleLength = 0 then false
        else decide (d % cycleLength < shift.workDays)
    | none => false
  else
    false

/-- `pad(n)`: `n.toString().padStart(2, '0')`. -/
def pad (n : Nat) : String :=
  if n < 10 then "0" ++ toString n else toString n

/-- The notification body rendered by `triggerAlarm`:
`${alarm.label || '时间到了'} - ${pad(alarm.hour)}:${pad(alarm.minute)}`. -/
def renderBody (alarm : Alarm) : String :=
  (if alarm.label = "" then "时间到了" else alarm.label) ++ " - " ++
    pad alarm.hour ++ ":" ++ pad alarm.minute

/-- The `notificationStyle` setting: `'system' | 'theme'`. -/
inductive NotificationStyle
  | system
  | theme
  deriving DecidableEq

/-- Outcomes of the external asynchronous calls available to one
`triggerAlarm` run: whether each call resolves and with what value. -/
structure NotifyEnv where
  /-- the first `sendNotification` resolves -/
  firstSendOk : Bool
  /-- `isPermissionGranted()` rejects -/
  permCheckThrows : Bool
  /-- `isPermissionGranted()` resolves to `true` -/
  permGranted : Bool
  /-- `requestPermission()` rejects -/
  requestThrows : Bool
  /-- `requestPermission()` resolves to `'granted'` -/
  requestGranted : Bool
  /-- the retry `sendNotification` resolves -/
  retrySendOk : Bool
  deriving DecidableEq

/-- Observable result of the notification part of one `triggerAlarm` run:
whether a system notification was delivered, the in-app (theme) banner data
if shown, and how many `sendNotification` calls were made. -/
structure NotifyResult where
  delivered : Bool
  banner : Option (String × String)
  sendCalls : Nat
  deriving DecidableEq

/-- The suffix appended to the banner body in `triggerAlarm`'s final
fallback: `` `${body} (系统通知失败)` ``. -/
def sysFailSuffix : String := " (系统通知失败)"

/-- The notification logic of `triggerAlarm(alarm)` (window focus handling
excluded: it is in its own `try`/`catch` and does not change the result).
Source structure: theme style shows the banner directly; otherwise the first
`sendNotification` is attempted, and on failure the permission fallback runs
inside a second `try`/`catch` whose catch shows the banner with the
failure-marked body. -/
def notify (style : NotificationStyle) (title body : String)
    (env : NotifyEnv) : NotifyResult :=
  if style = NotificationStyle.theme then
    { delivered := false, banner := some (title, body), sendCalls := 0 }
  else if env.firstSendOk then
    { delivered := true, banner := none, sendCalls := 1 }
  else if env.permCheckThrows then
    { delivered := false, banner := some (title, body ++ sysFailSuffix), sendCalls := 1 }
  else if env.permGranted then
    if env.retrySendOk then
      { delivered := true, banner := none, sendCalls := 2 }
    else
      { delivered := false, banner := some (title, body ++ sysFailSuffix), sendCalls := 2 }
  else if env.requestThrows then
    { delivered := false, banner := some (title, body ++ sysFailSuffix), sendCalls := 1 }
  else if env.requestGranted then
    if env.retrySendOk then
      { delivered := true, banner := none, sendCalls := 2 }
    else
      { delivered := false, banner := some (title, body ++ sysFailSuffix), sendCalls := 2 }
  else
    { delivered := false, banner := some (title, body), sendCalls := 1 }

/-- The body of `alarms.value.forEach(alarm => ...)` inside the scheduler's
per-minute sweep: skip disabled alarms; on an hour/minute match consult
`shouldTrigger`; on firing run `triggerAlarm`, disable `once` alarms, and
stamp `lastTriggered = todayStr`.  Returns the updated alarm and, when the
alarm fired, the notification result. -/
def sweepAlarm (style : NotificationStyle) (env : NotifyEnv) (now : Moment)
    (alarm : Alarm) : Alarm × Option NotifyResult :=
  if !alarm.enabled then (alarm, none)
  else if alarm.hour = now.hour ∧ alarm.minute = now.minute then
    if shouldTrigger alarm now now.day now.weekday then
      let r := notify style "定时提醒" (renderBody alarm) env
      let a1 :=
        if alarm.repeatRule.type = RepeatType.once then
          { alarm with enabled := false }
        else alarm
      ({ a1 with lastTriggered := some now.day }, some r)
    else (alarm, none)
  else (alarm, none)

/-- One sweep over the alarm store at a given minute. -/
def sweep (style : NotificationStyle) (env : NotifyEnv) (now : Moment)
    (alarms : List Alarm) : List Alarm :=
  alarms.map (fun a => (sweepAlarm style env now a).1)

/-- Scheduler state: the `lastRunMinute` string (initially `''`, modelled as
`none`) and the alarm store. -/
structure SchedState where
  lastRunMinute : Option (Int × Nat)
  alarms : List Alarm
  deriving DecidableEq

/-- One `setInterval` tick of `startScheduler`: if the current minute equals
`lastRunMinute`, do nothing; otherwise record the minute and run the sweep.
The returned flag tells whether the sweep ran. -/
def tick (style : NotificationStyle) (env : NotifyEnv) (s : SchedState)
    (now : Moment) : SchedState × Bool :=
  if some now.minuteKey = s.lastRunMinute then (s, false)
  else
    ({ lastRunMinute := some now.minuteKey,
       alarms := sweep style env now s.alarms }, true)

/-- The edit-form state consumed by `saveForm`. -/
structure Form where
  hour : Nat
  minute : Nat
  label : String
  repeatType : RepeatType
  customDays : List Int
  shiftStart : Int
  shiftWork : Int
  shiftRest : Int
  deriving DecidableEq

/-- The `alarmData` object built by `saveForm` for a given id: label defaults
when blank after trimming, `enabled` is set to `true`, the shift record is
attached only for shift rules, and no `lastTriggered` field is written. -/
def alarmData (f : Form) (id : String) : Alarm :=
  { id := id
    hour := f.hour
    minute := f.minute
    label := if f.label.trim ≠ "" then f.label else "定时提醒"
    enabled := true
    repeatRule :=
      { type := f.repeatType
        customDays := f.customDays
        shift :=
          if f.repeatType = RepeatType.shift then
            some { startDate := f.shiftStart
                   workDays := f.shiftWork
                   restDays := f.shiftRest }
          else none }
    lastTriggered := none }

/-- `saveForm()`: build `alarmData` with id `editingId.value || newId` and
either replace the alarm found by `findIndex` (when `editingId.value` is
truthy; an empty string is falsy in JavaScript) or push a new alarm. -/
def saveForm (f : Form) (editingId : Option String) (newId : String)
    (alarms : List Alarm) : List Alarm :=
  match editingId with
  | some eid =>
    if eid = "" then alarms ++ [alarmData f newId]
    else
      match alarms.findIdx? (fun a => a.id == eid) with
      | some i => alarms.set i (alarmData f eid)
      | none => alarms
  | none => alarms ++ [alarmData f newId]

/-! ### Helper lemmas -/

/-- On or after the start date, the truncated day difference computed by
`diffDays` is exactly the calendar-day difference. -/
theorem diffDays_eq_of_nonneg (now : Moment) (startDate k : Int)
    (hk : 0 ≤ k) (hd : now.day = startDate + k) (ht : now.todSec < 86400) :
    diffDays now startDate = k := by
  unfold diffDays
  rw [hd]
  have h1 : startDate + k - startDate = k := by ring
  rw [h1]
  have hnum : (0 : Int) ≤ k * 86400 + (now.todSec : Int) :=
    add_nonneg (mul_nonneg hk (by norm_num)) (Int.natCast_nonneg _)
  rw [Int.tdiv_eq_ediv hnum (by norm_num)]
  rw [add_comm, Int.add_mul_ediv_right _ _ (by norm_num)]
  rw [Int.ediv_eq_zero_of_lt (Int.natCast_nonneg _) (by exact_mod_cast ht)]
  simp

/-- Closed form of `shouldTrigger` on a shift rule with a nonzero cycle. -/
theorem shouldTrigger_shift_eq (a : Alarm) (s : ShiftRule) (now : Moment)
    (todayStr currentDay : Int)
    (htype : a.repeatRule.type = RepeatType.shift)
    (hs : a.repeatRule.shift = some s)
    (hcyc : s.workDays + s.restDays ≠ 0) :
    shouldTrigger a now todayStr currentDay =
      decide (0 ≤ diffDays now s.startDate ∧
        diffDays now s.startDate % (s.workDays + s.restDays) < s.workDays) := by
  simp only [shouldTrigger, htype, hs, reduceCtorEq, and_false, if_false, if_true,
    eq_self_iff_true]
  by_cases h0 : diffDays now s.startDate < 0
  · rw [if_pos h0]
    have hno : ¬ (0 ≤ diffDays now s.startDate ∧
        diffDays now s.startDate % (s.workDays + s.restDays) < s.workDays) :=
      fun h => absurd h.1 (not_le.mpr h0)
    simp [hno]
  · rw [if_neg h0, if_neg hcyc]
    have h0' : 0 ≤ diffDays now s.startDate := not_lt.mp h0
    simp [h0']

/-- A concrete shift alarm (start date day 100, 2 days on / 1 day off) used
by witnesses. -/
def shiftAlarm : Alarm :=
  { id := "w1", hour := 8, minute := 0, label := "L", enabled := true,
    repeatRule :=
      { type := RepeatType.shift
        customDays := []
        shift := some { startDate := 100, workDays := 2, restDays := 1 } },
    lastTriggered := none }

/-! ### Claim theorems -/

/-- C1: for a shift rule with `workDays ≥ 1` and `restDays ≥ 1`,
`shouldTrigger` is true iff `diffDays ≥ 0` and
`diffDays % (workDays + restDays) < workDays`, where `diffDays` is the
whole-day (truncated) difference between now and the start date; with
`workDays = 2`, `restDays = 1` the pattern over days `D..D+4` is
on, on, off, on, on; and day 0 (the start date itself) always fires. -/
theorem shift_cycle_spec :
    (∀ (a : Alarm) (s : ShiftRule) (now : Moment) (todayStr currentDay : Int),
      a.repeatRule.type = RepeatType.shift → a.repeatRule.shift = some s →
      1 ≤ s.workDays → 1 ≤ s.restDays →
      (shouldTrigger a now todayStr currentDay = true ↔
        0 ≤ diffDays now s.startDate ∧
          diffDays now s.startDate % (s.workDays + s.restDays) < s.workDays)) ∧
    (∀ (a : Alarm) (s : ShiftRule) (now : Moment) (todayStr currentDay : Int)
      (k : Nat),
      a.repeatRule.type = RepeatType.shift → a.repeatRule.shift = some s →
      s.workDays = 2 → s.restDays = 1 →
      now.day = s.startDate + (k : Int) → now.todSec < 86400 → k ≤ 4 →
      (shouldTrigger a now todayStr currentDay = true ↔ k ≠ 2)) ∧
    (∀ (a : Alarm) (s : ShiftRule) (now : Moment) (todayStr currentDay : Int),
      a.repeatRule.type = RepeatType.shift → a.repeatRule.shift = some s →
      1 ≤ s.workDays → 1 ≤ s.restDays →
      now.day = s.startDate → now.todSec < 86400 →
      shouldTrigger a now todayStr currentDay = true) := by
  refine ⟨?_, ?_, ?_⟩
  · intro a s now t c htype hs hw hr
    rw [shouldTrigger_shift_eq a s now t c htype hs (by omega)]
    simp
  · intro a s now t c k htype hs hw hr hd ht hk
    rw [shouldTrigger_shift_eq a s now t c htype hs (by omega)]
    rw [diffDays_eq_of_nonneg now s.startDate k (Int.natCast_nonneg k) hd ht]
    rw [hw, hr]
    simp only [decide_eq_true_eq]
    omega
  · intro a s now t c htype hs hw hr hd ht
    rw [shouldTrigger_shift_eq a s now t c htype hs (by omega)]
    rw [diffDays_eq_of_nonneg now s.startDate 0 le_rfl (by omega) ht]
    simp only [decide_eq_true_eq, Int.zero_emod]
    exact ⟨le_rfl, by omega⟩

/-- Witness for C1: the iff at day 103 (position 0 of the second cycle), the
pattern at offset 3, and the start-date firing, all on `shiftAlarm`. -/
theorem shift_cycle_spec_witness :
    (shouldTrigger shiftAlarm { day := 103, todSec := 28800 } 103 0 = true ↔
      0 ≤ diffDays { day := 103, todSec := 28800 } 100 ∧
        diffDays { day := 103, todSec := 28800 } 100 % (2 + 1) < 2) ∧
    (shouldTrigger shiftAlarm { day := 103, todSec := 28800 } 103 0 = true ↔
      (3 : Nat) ≠ 2) ∧
    shouldTrigger shiftAlarm { day := 100, todSec := 28800 } 100 0 = true := by
  refine ⟨?_, ?_, ?_⟩
  · exact shift_cycle_spec.1 shiftAlarm _ { day := 103, todSec := 28800 } 103 0
      rfl rfl (by decide) (by decide)
  · exact shift_cycle_spec.2.1 shiftAlarm _ { day := 103, todSec := 28800 } 103 0 3
      rfl rfl rfl rfl (by decide) (by decide) (by decide)
  · exact shift_cycle_spec.2.2 shiftAlarm _ { day := 100, todSec := 28800 } 100 0
      rfl rfl (by decide) (by decide) rfl (by decide)

/-- C2 (failing input): a shift alarm whose start date is day 100, evaluated
at 08:00 on day 99 — a calendar date strictly before the start date — fires,
because dayjs's whole-day diff truncates the negative 16-hour difference
toward zero, giving `diffDays = 0`. -/
theorem shift_fires_day_before_start :
    (99 : Int) < 100 ∧
    diffDays { day := 99, todSec := 28800 } 100 = 0 ∧
    shouldTrigger
      { id := "a", hour := 8, minute := 0, label := "L", enabled := true,
        repeatRule :=
          { type := RepeatType.shift
            customDays := []
            shift := some { startDate := 100, workDays := 1, restDays := 1 } },
        lastTriggered := none }
      { day := 99, todSec := 28800 } 99 ((99 + 4) % 7) = true := by decide

/-- C3: a `once` alarm's `shouldTrigger` is true iff its last-triggered date
is not today; in particular an already-fired-today `once` alarm does not
fire again. -/
theorem once_fires_iff_not_fired_today (a : Alarm) (now : Moment)
    (todayStr currentDay : Int)
    (htype : a.repeatRule.type = RepeatType.once) :
    (shouldTrigger a now todayStr currentDay = true ↔
      a.lastTriggered ≠ some todayStr) := by
  by_cases h : a.lastTriggered = some todayStr
  · simp [shouldTrigger, htype, h]
  · simp [shouldTrigger, htype, h]

/-- Witness for C3: a `once` alarm last triggered on day 4 fires on day 5
and does not fire again on day 4. -/
theorem once_fires_witness :
    shouldTrigger
      { id := "o", hour := 7, minute := 30, label := "", enabled := true,
        repeatRule := { type := RepeatType.once, customDays := [], shift := none },
        lastTriggered := some 4 }
      { day := 5, todSec := 27000 } 5 1 = true ∧
    shouldTrigger
      { id := "o", hour := 7, minute := 30, label := "", enabled := true,
        repeatRule := { type := RepeatType.once, customDays := [], shift := none },
        lastTriggered := some 4 }
      { day := 4, todSec := 27000 } 4 0 = false := by
  constructor
  · exact (once_fires_iff_not_fired_today _ _ 5 1 rfl).mpr (by decide)
  · have h := once_fires_iff_not_fired_today
      { id := "o", hour := 7, minute := 30, label := "", enabled := true,
        repeatRule := { type := RepeatType.once, customDays := [], shift := none },
        lastTriggered := some 4 }
      { day := 4, todSec := 27000 } 4 0 rfl
    simp only [ne_eq, not_true_eq_false, iff_false, Bool.not_eq_true] at h
    simpa using h

/-- C7: a shift rule with `workDays + restDays = 0` never fires and, the
evaluator being a total function, cannot crash the sweep (in JavaScript
`diffDays % 0` is `NaN` and `NaN < workDays` is false). -/
theorem shift_zero_cycle_never_fires (a : Alarm) (s : ShiftRule) (now : Moment)
    (todayStr currentDay : Int)
    (htype : a.repeatRule.type = RepeatType.shift)
    (hs : a.repeatRule.shift = some s)
    (hz : s.workDays + s.restDays = 0) :
    shouldTrigger a now todayStr currentDay = false := by
  simp only [shouldTrigger, htype, hs, reduceCtorEq, and_false, if_false, if_true,
    eq_self_iff_true]
  by_cases h0 : diffDays now s.startDate < 0
  · rw [if_pos h0]
  · rw [if_neg h0, if_pos hz]

/-- Witness for C7: a `workDays = 0`, `restDays = 0` shift alarm does not
fire on a day after its start date. -/
theorem shift_zero_cycle_witness :
    shouldTrigger
      { id := "z", hour := 8, minute := 0, label := "L", enabled := true,
        repeatRule :=
          { type := RepeatType.shift
            customDays := []
            shift := some { startDate := 100, workDays := 0, restDays := 0 } },
        lastTriggered := none }
      { day := 105, todSec := 28800 } 105 2 = false :=
  shift_zero_cycle_never_fires _ _ _ 105 2 rfl rfl (by decide)

/-- C10: for an alarm whose repeat type is not `once`, `shouldTrigger` does
not depend on `lastTriggered`: evaluations differing only in that field are
equal. -/
theorem recurring_ignores_lastTriggered (a : Alarm) (now : Moment)
    (todayStr currentDay : Int) (t1 t2 : Option Int)
    (h : a.repeatRule.type ≠ RepeatType.once) :
    shouldTrigger { a with lastTriggered := t1 } now todayStr currentDay =
      shouldTrigger { a with lastTriggered := t2 } now todayStr currentDay := by
  simp only [shouldTrigger]
  simp [h]

/-- Witness for C10: a daily alarm fires identically whether or not it was
last triggered today. -/
theorem recurring_ignores_lastTriggered_witness :
    shouldTrigger
      { id := "d", hour := 9, minute := 0, label := "L", enabled := true,
        repeatRule := { type := RepeatType.daily, customDays := [], shift := none },
        lastTriggered := some 5 }
      { day := 5, todSec := 32400 } 5 3 =
    shouldTrigger
      { id := "d", hour := 9, minute := 0, label := "L", enabled := true,
        repeatRule := { type := RepeatType.daily, customDays := [], shift := none },
        lastTriggered := none }
      { day := 5, todSec := 32400 } 5 3 :=
  recurring_ignores_lastTriggered
    { id := "d", hour := 9, minute := 0, label := "L", enabled := true,
      repeatRule := { type := RepeatType.daily, customDays := [], shift := none },
      lastTriggered := none }
    { day := 5, todSec := 32400 } 5 3 (some 5) none (by decide)

/-- C4: when an enabled alarm fires in a sweep, the scheduler stamps
`lastTriggered` with today's date and sets `enabled := false` exactly when
the repeat type is `once`; a disabled alarm is skipped unchanged by every
sweep until re-enabled. -/
theorem sweep_fire_mutations (style : NotificationStyle) (env : NotifyEnv)
    (now : Moment) (a : Alarm) :
    ((sweepAlarm style env now a).2.isSome →
      (sweepAlarm style env now a).1.lastTriggered = some now.day ∧
        ((sweepAlarm style env now a).1.enabled = false ↔
          a.repeatRule.type = RepeatType.once)) ∧
    (a.enabled = false → sweepAlarm style env now a = (a, none)) := by
  constructor
  · intro hfired
    unfold sweepAlarm at hfired ⊢
    split_ifs at hfired ⊢ with h1 h2 h3 h4
    · simp at hfired
    · simp only [Bool.not_eq_true'] at h1
      simp [h4, h1]
    · simp only [Bool.not_eq_true'] at h1
      simp [h4, h1]
    · simp at hfired
    · simp at hfired
  · intro hdis
    unfold sweepAlarm
    rw [if_pos (by simp [hdis])]

/-- Witness for C4: an enabled daily alarm firing at its minute gets
`lastTriggered` stamped and stays enabled; a disabled alarm is returned
unchanged and unfired. -/
theorem sweep_fire_mutations_witness :
    ((sweepAlarm NotificationStyle.system
        { firstSendOk := true, permCheckThrows := false, permGranted := true,
          requestThrows := false, requestGranted := false, retrySendOk := false }
        { day := 5, todSec := 32400 }
        { id := "d", hour := 9, minute := 0, label := "L", enabled := true,
          repeatRule := { type := RepeatType.daily, customDays := [], shift := none },
          lastTriggered := none }).1.lastTriggered = some 5 ∧
      ((sweepAlarm NotificationStyle.system
        { firstSendOk := true, permCheckThrows := false, permGranted := true,
          requestThrows := false, requestGranted := false, retrySendOk := false }
        { day := 5, todSec := 32400 }
        { id := "d", hour := 9, minute := 0, label := "L", enabled := true,
          repeatRule := { type := RepeatType.daily, customDays := [], shift := none },
          lastTriggered := none }).1.enabled = false ↔
        RepeatType.daily = RepeatType.once)) ∧
    sweepAlarm NotificationStyle.system
      { firstSendOk := true, permCheckThrows := false, permGranted := true,
        requestThrows := false, requestGranted := false, retrySendOk := false }
      { day := 5, todSec := 32400 }
      { id := "x", hour := 9, minute := 0, label := "L", enabled := false,
        repeatRule := { type := RepeatType.once, customDays := [], shift := none },
        lastTriggered := none } =
    ({ id := "x", hour := 9, minute := 0, label := "L", enabled := false,
       repeatRule := { type := RepeatType.once, customDays := [], shift := none },
       lastTriggered := none }, none) := by
  constructor
  · exact (sweep_fire_mutations NotificationStyle.system _ _ _).1 (by decide)
  · exact (sweep_fire_mutations NotificationStyle.system _ _ _).2 rfl

/-- C5: after any tick at moment `t`, a later tick whose clock reading
formats to the same wall-clock minute is a no-op (state unchanged, no
sweep); and a tick whose minute differs from the stored `lastRunMinute`
does run the sweep.  Together: two ticks in the same minute produce exactly
one sweep. -/
theorem tick_minute_dedup (style : NotificationStyle) (env : NotifyEnv)
    (s : SchedState) (t u : Moment) (hsame : u.minuteKey = t.minuteKey) :
    tick style env (tick style env s t).1 u = ((tick style env s t).1, false) ∧
    (s.lastRunMinute ≠ some t.minuteKey → (tick style env s t).2 = true) := by
  constructor
  · by_cases h : some t.minuteKey = s.lastRunMinute
    · have h1 : tick style env s t = (s, false) := by
        unfold tick
        rw [if_pos h]
      rw [h1]
      unfold tick
      rw [if_pos (show some u.minuteKey = (s, false).1.lastRunMinute by
        rw [hsame]; exact h)]
    · have h1 : tick style env s t =
          ({ lastRunMinute := some t.minuteKey,
             alarms := sweep style env t s.alarms }, true) := by
        unfold tick
        rw [if_neg h]
      rw [h1]
      unfold tick
      rw [if_pos (show some u.minuteKey = _ by rw [hsame])]
  · intro hne
    have h1 : tick style env s t =
        ({ lastRunMinute := some t.minuteKey,
           alarms := sweep style env t s.alarms }, true) := by
      unfold tick
      rw [if_neg (fun hh => hne hh.symm)]
    rw [h1]

/-- Witness for C5: two ticks at 09:00:00 and 09:00:30 of the same day — the
second is a no-op, and the first (from a fresh state) ran the sweep. -/
theorem tick_minute_dedup_witness :
    tick NotificationStyle.system
      { firstSendOk := true, permCheckThrows := false, permGranted := true,
        requestThrows := false, requestGranted := false, retrySendOk := false }
      (tick NotificationStyle.system
        { firstSendOk := true, permCheckThrows := false, permGranted := true,
          requestThrows := false, requestGranted := false, retrySendOk := false }
        { lastRunMinute := none, alarms := [] }
        { day := 5, todSec := 32400 }).1
      { day := 5, todSec := 32430 } =
    ((tick NotificationStyle.system
        { firstSendOk := true, permCheckThrows := false, permGranted := true,
          requestThrows := false, requestGranted := false, retrySendOk := false }
        { lastRunMinute := none, alarms := [] }
        { day := 5, todSec := 32400 }).1, false) ∧
    (tick NotificationStyle.system
      { firstSendOk := true, permCheckThrows := false, permGranted := true,
        requestThrows := false, requestGranted := false, retrySendOk := false }
      { lastRunMinute := none, alarms := [] }
      { day := 5, todSec := 32400 }).2 = true := by
  constructor
  · exact (tick_minute_dedup NotificationStyle.system _
      { lastRunMinute := none, alarms := [] }
      { day := 5, todSec := 32400 } { day := 5, todSec := 32430 } (by decide)).1
  · exact (tick_minute_dedup NotificationStyle.system _
      { lastRunMinute := none, alarms := [] }
      { day := 5, todSec := 32400 } { day := 5, todSec := 32430 } (by decide)).2
      (by decide)

/-- C6 (counterexample): with the system send failing and permission denied
after query and request, the fallback banner carries the original body,
not the system-failure variant the claim requires. -/
theorem notify_denied_body_unmarked :
    notify NotificationStyle.system "T" "B"
      { firstSendOk := false, permCheckThrows := false, permGranted := false,
        requestThrows := false, requestGranted := false, retrySendOk := false } =
      { delivered := false, banner := some ("T", "B"), sendCalls := 1 } ∧
    ("B" : String) ≠ "B" ++ sysFailSuffix := by
  exact ⟨rfl, by decide⟩

/-- C6 (amended): if the system delivery attempt fails and permission ends
up denied after query and request (no permission call throwing), the outcome
is the in-app fallback with the original, unmarked body and no retry; the
system-failure marking appears only on the throwing or failed-retry paths.
If the system delivery attempt fails but permission is granted (already or
after request), exactly one retry occurs and on retry success the outcome is
Delivered. -/
theorem notify_fallback_amended (title body : String) (env : NotifyEnv)
    (hfail : env.firstSendOk = false) :
    (env.permCheckThrows = false → env.permGranted = false →
      env.requestThrows = false → env.requestGranted = false →
      notify NotificationStyle.system title body env =
        { delivered := false, banner := some (title, body), sendCalls := 1 }) ∧
    (env.permCheckThrows = false →
      (env.permGranted = true ∨
        env.requestThrows = false ∧ env.requestGranted = true) →
      env.retrySendOk = true →
      notify NotificationStyle.system title body env =
        { delivered := true, banner := none, sendCalls := 2 }) := by
  constructor
  · intro h1 h2 h3 h4
    simp [notify, hfail, h1, h2, h3, h4]
  · rintro h1 (h2 | ⟨h3, h4⟩) h5
    · simp [notify, hfail, h1, h2, h5]
    · by_cases hp : env.permGranted = true
      · simp [notify, hfail, h1, hp, h5]
      · simp only [Bool.not_eq_true] at hp
        simp [notify, hfail, h1, hp, h3, h4, h5]

/-- Witness for C6's amended claim: concrete denied and granted-after-request
environments. -/
theorem notify_fallback_amended_witness :
    notify NotificationStyle.system "T" "B"
      { firstSendOk := false, permCheckThrows := false, permGranted := false,
        requestThrows := false, requestGranted := false, retrySendOk := false } =
      { delivered := false, banner := some ("T", "B"), sendCalls := 1 } ∧
    notify NotificationStyle.system "T" "B"
      { firstSendOk := false, permCheckThrows := false, permGranted := false,
        requestThrows := false, requestGranted := true, retrySendOk := true } =
      { delivered := true, banner := none, sendCalls := 2 } := by
  constructor
  · exact (notify_fallback_amended "T" "B" _ rfl).1 rfl rfl rfl rfl
  · exact (notify_fallback_amended "T" "B" _ rfl).2 rfl (Or.inr ⟨rfl, rfl⟩) rfl

/-- C8: the sweep's state mutations do not depend on the notifier: the
updated alarm is identical under any two notification styles/environments,
and when the alarm fires the mutations are applied even if every delivery
step fails.  The evaluator and sweep are total functions, so a notifier
failure never raises into the sweep. -/
theorem mutations_independent_of_notifier (style1 style2 : NotificationStyle)
    (env1 env2 : NotifyEnv) (now : Moment) (a : Alarm) :
    ((sweepAlarm style1 env1 now a).1 = (sweepAlarm style2 env2 now a).1) ∧
    ((sweepAlarm style1 env1 now a).2.isSome →
      (sweepAlarm style1 env1 now a).1.lastTriggered = some now.day ∧
        (a.repeatRule.type = RepeatType.once →
          (sweepAlarm style1 env1 now a).1.enabled = false)) := by
  constructor
  · unfold sweepAlarm
    split_ifs <;> rfl
  · intro hfired
    unfold sweepAlarm at hfired ⊢
    split_ifs at hfired ⊢ with h1 h2 h3 h4
    · simp at hfired
    · simp [h4]
    · exact ⟨rfl, fun ho => absurd ho h4⟩
    · simp at hfired
    · simp at hfired

/-- Witness for C8: a firing `once` alarm is mutated identically under an
all-success and an all-failure notifier environment, and is stamped and
disabled under the all-failure one. -/
theorem mutations_independent_witness :
    ((sweepAlarm NotificationStyle.system
        { firstSendOk := true, permCheckThrows := false, permGranted := true,
          requestThrows := false, requestGranted := false, retrySendOk := true }
        { day := 5, todSec := 32400 }
        { id := "o", hour := 9, minute := 0, label := "L", enabled := true,
          repeatRule := { type := RepeatType.once, customDays := [], shift := none },
          lastTriggered := none }).1 =
      (sweepAlarm NotificationStyle.system
        { firstSendOk := false, permCheckThrows := true, permGranted := false,
          requestThrows := true, requestGranted := false, retrySendOk := false }
        { day := 5, todSec := 32400 }
        { id := "o", hour := 9, minute := 0, label := "L", enabled := true,
          repeatRule := { type := RepeatType.once, customDays := [], shift := none },
          lastTriggered := none }).1) ∧
    ((sweepAlarm NotificationStyle.system
        { firstSendOk := false, permCheckThrows := true, permGranted := false,
          requestThrows := true, requestGranted := false, retrySendOk := false }
        { day := 5, todSec := 32400 }
        { id := "o", hour := 9, minute := 0, label := "L", enabled := true,
          repeatRule := { type := RepeatType.once, customDays := [], shift := none },
          lastTriggered := none }).1.lastTriggered = some 5 ∧
      (RepeatType.once = RepeatType.once →
        (sweepAlarm NotificationStyle.system
          { firstSendOk := false, permCheckThrows := true, permGranted := false,
            requestThrows := true, requestGranted := false, retrySendOk := false }
          { day := 5, todSec := 32400 }
          { id := "o", hour := 9, minute := 0, label := "L", enabled := true,
            repeatRule := { type := RepeatType.once, customDays := [], shift := none },
            lastTriggered := none }).1.enabled = false)) := by
  constructor
  · exact (mutations_independent_of_notifier NotificationStyle.system
      NotificationStyle.system
      { firstSendOk := true, permCheckThrows := false, permGranted := true,
        requestThrows := false, requestGranted := false, retrySendOk := true }
      { firstSendOk := false, permCheckThrows := true, permGranted := false,
        requestThrows := true, requestGranted := false, retrySendOk := false }
      { day := 5, todSec := 32400 }
      { id := "o", hour := 9, minute := 0, label := "L", enabled := true,
        repeatRule := { type := RepeatType.once, customDays := [], shift := none },
        lastTriggered := none }).1
  · exact (mutations_independent_of_notifier NotificationStyle.system
      NotificationStyle.system
      { firstSendOk := false, permCheckThrows := true, permGranted := false,
        requestThrows := true, requestGranted := false, retrySendOk := false }
      { firstSendOk := false, permCheckThrows := true, permGranted := false,
        requestThrows := true, requestGranted := false, retrySendOk := false }
      { day := 5, todSec := 32400 }
      { id := "o", hour := 9, minute := 0, label := "L", enabled := true,
        repeatRule := { type := RepeatType.once, customDays := [], shift := none },
        lastTriggered := none }).2 (by decide)

/-- C9: every alarm stored by `saveForm` — a newly created alarm or a
full-save replacement of an existing one, whatever its previous state — has
`enabled = true` and no `lastTriggered`. -/
theorem saveForm_enables_and_clears (f : Form) (newId : String)
    (alarms : List Alarm) :
    ((alarmData f newId).enabled = true ∧
      (alarmData f newId).lastTriggered = none) ∧
    saveForm f none newId alarms = alarms ++ [alarmData f newId] ∧
    (∀ (eid : String) (i : Nat), eid ≠ "" →
      alarms.findIdx? (fun a => a.id == eid) = some i → i < alarms.length →
      (saveForm f (some eid) newId alarms)[i]? = some (alarmData f eid) ∧
      (alarmData f eid).enabled = true ∧
      (alarmData f eid).lastTriggered = none) := by
  refine ⟨⟨rfl, rfl⟩, rfl, ?_⟩
  intro eid i hne hfind hlt
  refine ⟨?_, rfl, rfl⟩
  unfold saveForm
  simp only [hne, hfind, if_false, ite_false]
  exact List.getElem?_set_self hlt

/-- Witness for C9: a full-save edit of a disabled, already-triggered alarm
stores it re-enabled with `lastTriggered` cleared. -/
theorem saveForm_enables_witness :
    (saveForm
      { hour := 8, minute := 0, label := "L", repeatType := RepeatType.daily,
        customDays := [], shiftStart := 0, shiftWork := 1, shiftRest := 1 }
      (some "x") "n"
      [{ id := "x", hour := 7, minute := 15, label := "old", enabled := false,
         repeatRule := { type := RepeatType.once, customDays := [], shift := none },
         lastTriggered := some 4 }])[0]? =
      some (alarmData
        { hour := 8, minute := 0, label := "L", repeatType := RepeatType.daily,
          customDays := [], shiftStart := 0, shiftWork := 1, shiftRest := 1 } "x") ∧
    (alarmData
      { hour := 8, minute := 0, label := "L", repeatType := RepeatType.daily,
        customDays := [], shiftStart := 0, shiftWork := 1, shiftRest := 1 }
      "x").enabled = true ∧
    (alarmData
      { hour := 8, minute := 0, label := "L", repeatType := RepeatType.daily,
        customDays := [], shiftStart := 0, shiftWork := 1, shiftRest := 1 }
      "x").lastTriggered = none :=
  (saveForm_enables_and_clears _ "n" _).2.2 "x" 0 (by decide) (by decide)
    (by decide)

end TimeReminder
